import Mathlib

/-!
Verification of the `surgishop_workspaces` Frappe app's `hooks.py`.

The module is a straight-line sequence of seven literal assignments at
module level (lines 1-7 of `src/surgishop_workspaces/hooks.py`); every
other hook in the file is commented out.  We embed a small semantics of
Python module evaluation restricted to the constructs that occur (string
literals, lists of string literals, name references, and reads of
external state — the latter two present in the language so that totality
and determinism of this particular module are non-trivial facts), give
the module as a list of statements transcribed from the source, and
prove the spec's claims about the resulting module namespace.
-/

/-- A Python value as it occurs in active code of `hooks.py`:
a string, or a list of strings. -/
inductive PyValue where
  | str : String → PyValue
  | strList : List String → PyValue
deriving DecidableEq, Repr

/-- Is this value a string? -/
def PyValue.isStr : PyValue → Bool
  | .str _ => true
  | .strList _ => false

/-- Is this value a list of strings? -/
def PyValue.isStrList : PyValue → Bool
  | .str _ => false
  | .strList _ => true

/-- Expressions of the fragment of Python that module evaluation needs:
string literals, list-of-string literals, references to an
already-bound module name (a `NameError` if unbound), and reads of
external state (environment, file system, ...), which fail when the
external state has no value for the key. -/
inductive PyExpr where
  | strLit : String → PyExpr
  | listLit : List String → PyExpr
  | nameRef : String → PyExpr
  | inputRead : String → PyExpr
deriving DecidableEq, Repr

/-- A module-level statement: an assignment of an expression to a name. -/
inductive PyStmt where
  | assign : String → PyExpr → PyStmt
deriving DecidableEq, Repr

/-- The module namespace: an association list from names to values,
in binding order. -/
abbrev Env := List (String × PyValue)

/-- Look a name up in the module namespace. -/
def lookupEnv : Env → String → Option PyValue
  | [], _ => none
  | (y, w) :: rest, x => if y = x then some w else lookupEnv rest x

/-- Python assignment into the module namespace: overwrite an existing
binding in place, otherwise append a new one. -/
def setBinding : Env → String → PyValue → Env
  | [], x, v => [(x, v)]
  | (y, w) :: rest, x, v =>
    if y = x then (x, v) :: rest else (y, w) :: setBinding rest x v

/-- Evaluate an expression.  `eState` is the external state visible to
the module (environment variables, files, ...); `none` models a raised
exception. -/
def evalExpr (eState : String → Option PyValue) (env : Env) :
    PyExpr → Option PyValue
  | .strLit s => some (.str s)
  | .listLit l => some (.strList l)
  | .nameRef x => lookupEnv env x
  | .inputRead k => eState k

/-- Execute one statement; `none` models an uncaught exception. -/
def execStmt (eState : String → Option PyValue) (env : Env) :
    PyStmt → Option Env
  | .assign x e => (evalExpr eState env e).map (setBinding env x)

/-- Execute a statement list in order, propagating exceptions. -/
def runStmts (eState : String → Option PyValue) :
    Env → List PyStmt → Option Env
  | env, [] => some env
  | env, s :: rest =>
    match execStmt eState env s with
    | none => none
    | some env2 => runStmts eState env2 rest

/-- Evaluate a module: run its statements from the empty namespace. -/
def evalModule (eState : String → Option PyValue) (stmts : List PyStmt) :
    Option Env :=
  runStmts eState [] stmts

/-- Does a statement assign a compile-time literal (as opposed to a
name reference or a read of external state)? -/
def PyStmt.isLitAssign : PyStmt → Bool
  | .assign _ (.strLit _) => true
  | .assign _ (.listLit _) => true
  | .assign _ (.nameRef _) => false
  | .assign _ (.inputRead _) => false

/-- The active statements of `src/surgishop_workspaces/hooks.py`
(lines 1-7), transcribed in source order.  Everything else in the file
is a comment. -/
def hooksModule : List PyStmt :=
  [ .assign "app_name" (.strLit "surgishop_workspaces"),
    .assign "app_title" (.strLit "SurgiShop Workspaces"),
    .assign "app_publisher" (.strLit "SurgiShop"),
    .assign "app_description" (.strLit "Custom workspaces for SurgiShop ERPNext"),
    .assign "app_email" (.strLit "gary@surgishop.com"),
    .assign "app_license" (.strLit "mit"),
    .assign "required_apps" (.listLit ["erpnext"]) ]

/-- The namespace that evaluating `hooks.py` produces. -/
def hooksEnv : Env :=
  [ ("app_name", .str "surgishop_workspaces"),
    ("app_title", .str "SurgiShop Workspaces"),
    ("app_publisher", .str "SurgiShop"),
    ("app_description", .str "Custom workspaces for SurgiShop ERPNext"),
    ("app_email", .str "gary@surgishop.com"),
    ("app_license", .str "mit"),
    ("required_apps", .strList ["erpnext"]) ]

/-- The seven recognized metadata variable names of the host
framework's manifest contract that `hooks.py` binds. -/
def metadataNames : List String :=
  [ "app_name", "app_title", "app_publisher", "app_description",
    "app_email", "app_license", "required_apps" ]

/-- Hook names the host framework would recognize, none of which
`hooks.py` binds (they occur only inside comments). -/
def recognizedHookNames : List String :=
  [ "scheduler_events", "doc_events", "permission_query_conditions",
    "has_permission", "override_whitelisted_methods",
    "before_install", "after_install", "before_uninstall",
    "after_uninstall", "before_app_install", "after_app_install",
    "before_app_uninstall", "after_app_uninstall",
    "before_request", "after_request", "before_job", "after_job",
    "user_data_fields", "auth_hooks", "app_include_css",
    "app_include_js", "web_include_css", "web_include_js",
    "website_theme_scss", "webform_include_js", "webform_include_css",
    "page_js", "doctype_js", "doctype_list_js", "doctype_tree_js",
    "doctype_calendar_js", "app_include_icons", "home_page",
    "role_home_page", "generators", "jinja", "notification_config",
    "override_doctype_class", "before_tests",
    "override_doctype_dashboards", "auto_cancel_exempted_doctypes",
    "ignore_links_on_delete", "export_python_type_annotations",
    "default_log_clearing_doctypes" ]

/-- Evaluating `hooks.py` succeeds and yields `hooksEnv`, whatever the
external state is: no statement of the module reads it. -/
theorem evalModule_hooks (eState : String → Option PyValue) :
    evalModule eState hooksModule = some hooksEnv := rfl

/-- C1: the module-level binding `app_name` produced by evaluating
`hooks.py` equals the string "surgishop_workspaces". -/
theorem c1_app_name (eState : String → Option PyValue) :
    ∃ env, evalModule eState hooksModule = some env ∧
      lookupEnv env "app_name" = some (.str "surgishop_workspaces") :=
  ⟨hooksEnv, evalModule_hooks eState, by decide⟩

/-- C2: the module-level binding `required_apps` produced by evaluating
`hooks.py` equals the one-element list of strings ["erpnext"]. -/
theorem c2_required_apps (eState : String → Option PyValue) :
    ∃ env, evalModule eState hooksModule = some env ∧
      lookupEnv env "required_apps" = some (.strList ["erpnext"]) :=
  ⟨hooksEnv, evalModule_hooks eState, by decide⟩

/-- C3: evaluating `hooks.py` defines every one of the seven recognized
active metadata variable names as a module-level binding. -/
theorem c3_metadata_defined (eState : String → Option PyValue) :
    ∃ env, evalModule eState hooksModule = some env ∧
      ∀ n ∈ metadataNames, (lookupEnv env n).isSome := by
  refine ⟨hooksEnv, evalModule_hooks eState, ?_⟩
  decide

/-- C4: evaluating `hooks.py` defines zero active hook bindings: no
recognized hook name is bound, and the bound names are exactly the
seven metadata variables, in source order. -/
theorem c4_no_hooks (eState : String → Option PyValue) :
    ∃ env, evalModule eState hooksModule = some env ∧
      (∀ h ∈ recognizedHookNames, lookupEnv env h = none) ∧
      env.map Prod.fst = metadataNames := by
  refine ⟨hooksEnv, evalModule_hooks eState, ?_, ?_⟩ <;> decide

/-- C5: the module is a straight-line sequence of seven literal
assignments, and its evaluation always terminates successfully
(produces `some` namespace, never an exception), reading no external
state. -/
theorem c5_total (eState : String → Option PyValue) :
    hooksModule.length = 7 ∧
    (∀ s ∈ hooksModule, s.isLitAssign) ∧
    evalModule eState hooksModule = some hooksEnv :=
  ⟨rfl, by decide, evalModule_hooks eState⟩

/-- C6 counterexample: it is not the case that every module-level
binding of `hooks.py` is bound to a string value: `required_apps` is
bound to a list of strings. -/
theorem c6_counterexample :
    ¬ (∀ p ∈ hooksEnv, p.2.isStr) ∧
    lookupEnv hooksEnv "required_apps" = some (.strList ["erpnext"]) := by
  constructor <;> decide

/-- C6 (amended): every module-level binding of `hooks.py` other than
`required_apps` is bound to a string value, and `required_apps` is
bound to a list of strings. -/
theorem c6_amended (eState : String → Option PyValue) :
    ∃ env, evalModule eState hooksModule = some env ∧
      (∀ p ∈ env, p.1 ≠ "required_apps" → p.2.isStr) ∧
      (∀ p ∈ env, p.1 = "required_apps" → p.2.isStrList) := by
  refine ⟨hooksEnv, evalModule_hooks eState, ?_, ?_⟩ <;> decide

/-- C7: the module-level binding `app_license` equals the lowercase
string "mit". -/
theorem c7_app_license (eState : String → Option PyValue) :
    ∃ env, evalModule eState hooksModule = some env ∧
      lookupEnv env "app_license" = some (.str "mit") :=
  ⟨hooksEnv, evalModule_hooks eState, by decide⟩

/-- C8: the remaining identity metadata bindings have exactly the
literal, non-empty string values given in the source: `app_title`,
`app_publisher`, `app_description` and `app_email`. -/
theorem c8_identity_metadata (eState : String → Option PyValue) :
    ∃ env, evalModule eState hooksModule = some env ∧
      lookupEnv env "app_title" = some (.str "SurgiShop Workspaces") ∧
      lookupEnv env "app_publisher" = some (.str "SurgiShop") ∧
      lookupEnv env "app_description" =
        some (.str "Custom workspaces for SurgiShop ERPNext") ∧
      lookupEnv env "app_email" = some (.str "gary@surgishop.com") ∧
      ∀ n ∈ ["app_title", "app_publisher", "app_description", "app_email"],
        ∃ s, lookupEnv env n = some (.str s) ∧ s ≠ "" := by
  refine ⟨hooksEnv, evalModule_hooks eState, by decide, by decide, by decide,
    by decide, ?_⟩
  intro n hn
  fin_cases hn <;> exact ⟨_, rfl, by decide⟩

/-- C9: module evaluation is deterministic: any two evaluations of
`hooks.py`, under any two external states, produce the identical
namespace, every assigned value being a literal depending on no
input. -/
theorem c9_deterministic (e1 e2 : String → Option PyValue) :
    evalModule e1 hooksModule = evalModule e2 hooksModule ∧
    evalModule e1 hooksModule = some hooksEnv :=
  ⟨(evalModule_hooks e1).trans (evalModule_hooks e2).symm,
   evalModule_hooks e1⟩
